import Mathlib

/-!
Verification of the remote syslog delivery subsystem of randlabs/go-logger.

The definitions below are a shallow embedding of the Go source file
src/syslog.go.  Messages are kept abstract (a type variable) where the queue
logic does not inspect them; machine integers that never overflow in the
modelled ranges are embedded as Nat.
-/

namespace GoLogger

/-- Embeds the queue update performed by syslogAdapter.writeString
(src/syslog.go lines 255-265): under the queue mutex, if the current length
strictly exceeds maxMessageQueueSize the front element is removed (the list is
non-empty in that case, so the nil check on Front always passes), and then the
freshly formatted message is pushed at the back. -/
def writeStringEnqueue (maxMessageQueueSize : Nat) (q : List α) (msg : α) : List α :=
  (if maxMessageQueueSize < q.length then q.tail else q) ++ [msg]

/-- A sequence of writeString calls starting from queue q: each call runs the
queue update of writeStringEnqueue, in order. -/
def enqueueAll (maxMessageQueueSize : Nat) (q : List α) (msgs : List α) : List α :=
  msgs.foldl (writeStringEnqueue maxMessageQueueSize) q

/-- Embeds the dequeue loop shared by messengerWorker (src/syslog.go lines
286-307) and flushQueuedMessages (lines 334-339): every dequeue takes Front and
removes it, so a full drain hands the queue contents over front to back. -/
def messengerDrain : List α → List α
  | [] => []
  | m :: rest => m :: messengerDrain rest

theorem messengerDrain_eq (q : List α) : messengerDrain q = q := by
  induction q with
  | nil => rfl
  | cons m rest ih => simp [messengerDrain, ih]

theorem length_writeStringEnqueue (maxQ : Nat) (q : List α) (m : α) :
    (writeStringEnqueue maxQ q m).length =
      if maxQ < q.length then q.length else q.length + 1 := by
  by_cases h : maxQ < q.length
  · have hq : q ≠ [] := by
      intro hnil
      rw [hnil] at h
      exact Nat.not_lt_zero maxQ h
    simp [writeStringEnqueue, h, List.length_tail]
    omega
  · simp [writeStringEnqueue, h]

/-- Characterization of the queue built by a sequence of enqueues from the
empty queue: it is the suffix of the input sequence of length
min (number of messages) (maxMessageQueueSize + 1).  The bound is
maxMessageQueueSize + 1, not maxMessageQueueSize, because writeStringEnqueue
evicts only when the pre-push length already strictly exceeds the maximum. -/
theorem enqueueAll_nil_eq (maxQ : Nat) (msgs : List α) :
    enqueueAll maxQ ([] : List α) msgs = msgs.drop (msgs.length - (maxQ + 1)) := by
  induction msgs using List.reverseRecOn with
  | nil => simp [enqueueAll]
  | append_singleton ms m ih =>
    have ih' : List.foldl (writeStringEnqueue maxQ) ([] : List α) ms
        = List.drop (ms.length - (maxQ + 1)) ms := ih
    show List.foldl (writeStringEnqueue maxQ) ([] : List α) (ms ++ [m])
        = List.drop ((ms ++ [m]).length - (maxQ + 1)) (ms ++ [m])
    rw [List.foldl_append, ih']
    by_cases h : ms.length ≤ maxQ
    · have h0 : ms.length - (maxQ + 1) = 0 := by omega
      have h1 : (ms ++ [m]).length - (maxQ + 1) = 0 := by
        simp only [List.length_append, List.length_cons, List.length_nil]
        omega
      have hcond : ¬ maxQ < ms.length := by omega
      rw [h0, List.drop_zero, h1, List.drop_zero]
      simp [writeStringEnqueue, hcond]
    · have hlt : maxQ < ms.length := by omega
      have hlen : (List.drop (ms.length - (maxQ + 1)) ms).length = maxQ + 1 := by
        rw [List.length_drop]
        omega
      have h2 : (ms ++ [m]).length - (maxQ + 1) = ms.length - maxQ := by
        simp only [List.length_append, List.length_cons, List.length_nil]
        omega
      rw [h2, List.drop_append_of_le_length (by omega)]
      simp only [List.foldl_cons, List.foldl_nil, writeStringEnqueue, hlen]
      simp only [Nat.lt_succ_self, if_true]
      rw [List.tail_drop]
      have harith : ms.length - (maxQ + 1) + 1 = ms.length - maxQ := by omega
      rw [harith]

theorem length_enqueueAll_nil (maxQ : Nat) (msgs : List α) :
    (enqueueAll maxQ ([] : List α) msgs).length = min msgs.length (maxQ + 1) := by
  rw [enqueueAll_nil_eq, List.length_drop]
  omega

/-- C1: the claim states that after every writeString the queue length never
exceeds maxMessageQueueSize.  The code evicts only when the pre-push length is
strictly greater than the maximum, so the queue stabilizes at
maxMessageQueueSize + 1 elements: with maxMessageQueueSize = 2, three enqueues
into an empty queue leave all three messages queued, and the bound claimed by
the specification (and by the SysLogOptions field documentation, which calls
the option the maximum amount of messages to keep in memory) is exceeded. -/
theorem writeString_queue_exceeds_max :
    enqueueAll 2 ([] : List Nat) [10, 20, 30] = [10, 20, 30] ∧
      2 < (enqueueAll 2 ([] : List Nat) [10, 20, 30]).length := by
  constructor
  · rfl
  · decide

/-- C2: the claim states that 1200 enqueues with maxMessageQueueSize = 1024
leave exactly the newest 1024 messages (176 evicted).  The code keeps the
newest 1025 and evicts only 175: the drained transport output is the suffix of
length 1025, still in the original relative order. -/
theorem writeString_overflow_keeps_1025 :
    messengerDrain (enqueueAll 1024 ([] : List Nat) (List.range 1200)) =
        (List.range 1200).drop 175 ∧
      (enqueueAll 1024 ([] : List Nat) (List.range 1200)).length = 1025 := by
  constructor
  · rw [messengerDrain_eq, enqueueAll_nil_eq]
    simp
  · rw [length_enqueueAll_nil]
    simp

/-- C6: for every sequence of enqueues whose count does not exceed
maxMessageQueueSize, no eviction happens and a full drain delivers the
messages to the transport in exactly the order they were enqueued. -/
theorem enqueue_within_capacity_fifo (maxQ : Nat) (msgs : List Nat)
    (h : msgs.length ≤ maxQ) :
    messengerDrain (enqueueAll maxQ ([] : List Nat) msgs) = msgs := by
  rw [messengerDrain_eq, enqueueAll_nil_eq]
  have h0 : msgs.length - (maxQ + 1) = 0 := by omega
  rw [h0, List.drop_zero]

/-- Witness for C6 at a concrete input: three messages, capacity four. -/
theorem enqueue_within_capacity_fifo_witness :
    messengerDrain (enqueueAll 4 ([] : List Nat) [7, 8, 9]) = [7, 8, 9] :=
  enqueue_within_capacity_fifo 4 [7, 8, 9] (by decide)

/-! Connection manager (src/syslog.go lines 359-406). -/

/-- The transport selected by the adapter configuration: connect dials udp when
useTcp is unset, tcp when useTcp is set and tlsConfig is nil, and tls when
useTcp is set and a tlsConfig is present. -/
inductive Transport
  | udp
  | tcp
  | tls
deriving DecidableEq, Repr

/-- A value held by the adapter field conn, of Go interface type net.Conn.
live models a non-nil interface holding a usable connection object; nilPtr
models a non-nil interface wrapping a nil pointer of a concrete type, which is
what the multi-assignment conn, err = tls.Dial(...) stores when the dial fails
(tls.Dial returns a nil pointer of a concrete pointer type together with the
error, and converting that pointer to the interface yields an interface value
that compares unequal to nil). -/
inductive ConnVal
  | live (id : Nat)
  | nilPtr
deriving DecidableEq, Repr

/-- Abstract network errors observed by the adapter. -/
inductive SysErr
  | dialFail
  | writeFail
deriving DecidableEq, Repr

/-- The observable outcome of one writeBytes call: the returned error, the
conn field on return (none models a nil interface), how many connection
attempts were made, how many retried writes were made after a connect, and
whether the call faulted by invoking Write through a nil pointer. -/
structure WBResult where
  retErr : Option SysErr
  conn : Option ConnVal
  connectAttempts : Nat
  retriedWrites : Nat
  panicked : Bool
deriving DecidableEq, Repr

/-- Embeds syslogAdapter.connect (src/syslog.go lines 359-375).  The dial
outcome of the underlying network is an oracle argument: some id means the
dial produced the live connection id, none means it failed.  connect first
runs disconnect, then dials; on failure the conn field is a nil interface for
udp and tcp (net.Dial returns a nil interface value) but the nilPtr value for
tls (tls.Dial returns a typed nil pointer). -/
def connect (tr : Transport) (dial : Option Nat) : Option ConnVal × Option SysErr :=
  match dial with
  | some id => (some (ConnVal.live id), none)
  | none =>
    (if tr = Transport.tls then some ConnVal.nilPtr else none, some SysErr.dialFail)

/-- The tail of writeBytes after the hot path has failed or been skipped
(src/syslog.go lines 395-405): one connect; on connect error return it; on
connect success one retried write, disconnecting on a retry failure. -/
def writeBytesAfterConnect (tr : Transport) (dial : Option Nat)
    (retryWrite : Bool) : WBResult :=
  match connect tr dial with
  | (c, some e) => ⟨some e, c, 1, 0, false⟩
  | (c, none) =>
    if retryWrite then ⟨none, c, 1, 1, false⟩
    else ⟨some SysErr.writeFail, none, 1, 1, false⟩

/-- Embeds syslogAdapter.writeBytes (src/syslog.go lines 384-406).  conn0 is
the conn field on entry; firstWrite is the oracle outcome of the hot-path
write on a live connection; dial and retryWrite are the oracle outcomes of the
connect and of the post-connect write.  Calling Write through the nilPtr value
dereferences a nil pointer, recorded as panicked. -/
def writeBytes (tr : Transport) (conn0 : Option ConnVal) (firstWrite : Bool)
    (dial : Option Nat) (retryWrite : Bool) : WBResult :=
  match conn0 with
  | some (ConnVal.live id) =>
    if firstWrite then ⟨none, some (ConnVal.live id), 0, 0, false⟩
    else writeBytesAfterConnect tr dial retryWrite
  | some ConnVal.nilPtr => ⟨none, some ConnVal.nilPtr, 0, 0, true⟩
  | none => writeBytesAfterConnect tr dial retryWrite

/-- C3: per writeBytes call: a successful hot-path write returns success with
no connect and no retried write; a failed hot-path write or an absent
connection triggers exactly one connect attempt, and a failed hot-path write
behaves exactly like an absent connection from there on; when the connect
fails the dial error is returned with no retried write; when the connect
succeeds exactly one retried write runs and its result is returned; and no
call ever makes more than one connect attempt or more than one retried
write. -/
theorem writeBytes_single_reconnect (tr : Transport) (id : Nat)
    (fw rw : Bool) (dial : Option Nat) (conn0 : Option ConnVal) :
    writeBytes tr (some (ConnVal.live id)) true dial rw
        = ⟨none, some (ConnVal.live id), 0, 0, false⟩ ∧
      (writeBytes tr (some (ConnVal.live id)) false dial rw).connectAttempts = 1 ∧
      (writeBytes tr none fw dial rw).connectAttempts = 1 ∧
      writeBytes tr (some (ConnVal.live id)) false dial rw
        = writeBytes tr none fw dial rw ∧
      writeBytes tr none fw none rw
        = ⟨some SysErr.dialFail, (connect tr none).1, 1, 0, false⟩ ∧
      writeBytes tr none fw (some id) rw
        = ⟨if rw then none else some SysErr.writeFail,
           if rw then some (ConnVal.live id) else none, 1, 1, false⟩ ∧
      (writeBytes tr conn0 fw dial rw).connectAttempts ≤ 1 ∧
      (writeBytes tr conn0 fw dial rw).retriedWrites ≤ 1 := by
  refine ⟨rfl, ?_, ?_, rfl, ?_, ?_, ?_, ?_⟩
  · cases dial <;> simp [writeBytes, writeBytesAfterConnect, connect] <;>
      cases rw <;> simp
  · cases dial <;> simp [writeBytes, writeBytesAfterConnect, connect] <;>
      cases rw <;> simp
  · cases tr <;> simp [writeBytes, writeBytesAfterConnect, connect]
  · cases rw <;> simp [writeBytes, writeBytesAfterConnect, connect]
  · rcases conn0 with _ | c
    · cases dial <;> simp [writeBytes, writeBytesAfterConnect, connect] <;>
        cases rw <;> simp
    · rcases c with i | _
      · cases fw <;> cases dial <;>
          simp [writeBytes, writeBytesAfterConnect, connect] <;>
          cases rw <;> simp
      · simp [writeBytes]
  · rcases conn0 with _ | c
    · cases dial <;> simp [writeBytes, writeBytesAfterConnect, connect] <;>
        cases rw <;> simp
    · rcases c with i | _
      · cases fw <;> cases dial <;>
          simp [writeBytes, writeBytesAfterConnect, connect] <;>
          cases rw <;> simp
      · simp [writeBytes]

/-- C7: the claim states that whenever writeBytes returns an error the conn
field is nil on return.  For the tls transport this fails: when the dial
fails, the multi-assignment stores a non-nil interface wrapping a nil pointer
in the conn field, so writeBytes returns the dial error while conn is not nil;
the next call then faults by invoking Write through that value. -/
theorem writeBytes_tls_dial_fail_leaves_conn :
    (writeBytes Transport.tls none false none false).retErr
        = some SysErr.dialFail ∧
      (writeBytes Transport.tls none false none false).conn
        = some ConnVal.nilPtr ∧
      some ConnVal.nilPtr ≠ (none : Option ConnVal) ∧
      (writeBytes Transport.tls (some ConnVal.nilPtr) true none false).panicked
        = true := by
  refine ⟨rfl, rfl, ?_, rfl⟩
  decide

/-! Error reporter debounce (src/syslog.go lines 349-357). -/

/-- Embeds syslogAdapter.handleError.  lastWasError is the atomic flag on
entry (true models the stored value 1); errOccurred states whether the send
returned an error; hasHandler states whether globals.ErrorHandler is non-nil.
Returns the flag after the call and whether the handler was invoked: on
success the flag is stored as 0; on failure the compare-and-swap from 0 to 1
succeeds exactly when the flag was 0, and only then, with a handler
configured, is the handler invoked. -/
def handleError (hasHandler : Bool) (lastWasError : Bool) (errOccurred : Bool) :
    Bool × Bool :=
  match errOccurred, lastWasError with
  | false, _ => (false, false)
  | true, false => (true, hasHandler)
  | true, true => (true, false)

/-- Runs handleError over a sequence of send outcomes (true means the send
failed), threading the flag and counting handler invocations. -/
def runSends (hasHandler : Bool) : Bool → List Bool → Bool × Nat
  | flag, [] => (flag, 0)
  | flag, r :: rs =>
    let s := handleError hasHandler flag r
    let rest := runSends hasHandler s.1 rs
    (rest.1, (if s.2 then 1 else 0) + rest.2)

theorem runSends_flag_set_absorb (hasHandler : Bool) (k : Nat)
    (rest : List Bool) :
    runSends hasHandler true (List.replicate k true ++ rest)
      = runSends hasHandler true rest := by
  induction k with
  | zero => rfl
  | succ k ih =>
    rw [List.replicate_succ, List.cons_append]
    simp [runSends, handleError, ih]

/-- C4: from the ok state, a run of n consecutive failed sends with n at least
one invokes the configured handler exactly once, and that invocation happens
already on the first failure; appending a success and then a further failure
produces exactly one more invocation; and a successful send never invokes the
handler, from either flag state. -/
theorem handleError_debounce (n : Nat) (h : 1 ≤ n) :
    (runSends true false (List.replicate n true)).2 = 1 ∧
      (handleError true false true).2 = true ∧
      (runSends true false (List.replicate n true ++ [false, true])).2 = 2 ∧
      (∀ flag : Bool, (handleError true flag false).2 = false) := by
  obtain ⟨k, rfl⟩ : ∃ k, n = k + 1 := ⟨n - 1, by omega⟩
  have habs := runSends_flag_set_absorb true k ([] : List Bool)
  rw [List.append_nil] at habs
  refine ⟨?_, rfl, ?_, ?_⟩
  · rw [List.replicate_succ]
    simp [runSends, handleError, habs]
  · rw [List.replicate_succ, List.cons_append]
    simp [runSends, handleError, runSends_flag_set_absorb true k [false, true]]
  · intro flag
    cases flag <;> rfl

/-- Witness for C4 at n = 3. -/
theorem handleError_debounce_witness :
    (runSends true false (List.replicate 3 true)).2 = 1 ∧
      (handleError true false true).2 = true ∧
      (runSends true false (List.replicate 3 true ++ [false, true])).2 = 2 ∧
      (∀ flag : Bool, (handleError true flag false).2 = false) :=
  handleError_debounce 3 (by decide)

/-! Shutdown flush (src/syslog.go lines 330-347, called from destroy at line
188).  The wall-clock deadline test time.Now().Before(deadline) performed at
the top of each iteration is embedded as a fuel argument counting how many
deadline checks still pass; everything else is the loop body verbatim. -/

/-- Embeds syslogAdapter.flushQueuedMessages.  send is the outcome oracle of
writeBytes on each message.  Returns the messages removed from the queue and
handed to writeBytes, in order, together with the remaining queue.  The loop
stops when the deadline check fails (fuel exhausted), when Front is nil (queue
empty), or right after the first send that returns an error. -/
def flushQueuedMessages (send : α → Option SysErr) :
    Nat → List α → List α × List α
  | 0, q => ([], q)
  | _ + 1, [] => ([], [])
  | fuel + 1, m :: rest =>
    match send m with
    | some _ => ([m], rest)
    | none =>
      let p := flushQueuedMessages send fuel rest
      (m :: p.1, p.2)

/-- C5: the flush loop terminates at the first of: deadline elapsed (no
message attempted beyond the fuel), queue empty, or first send error (the
failing head is removed and attempted, the rest stays queued); a successful
send of the head continues with the rest; and with an unreachable collector
(every send fails) at most one message is ever attempted, for every queue
length D and every fuel, so destroy returns without draining the D queued
messages. -/
theorem flushQueuedMessages_stops (send : α → Option SysErr) (q rest : List α)
    (m : α) (fuel : Nat) (e : SysErr) :
    flushQueuedMessages send 0 q = ([], q) ∧
      flushQueuedMessages send (fuel + 1) ([] : List α) = ([], []) ∧
      (send m = some e →
        flushQueuedMessages send (fuel + 1) (m :: rest) = ([m], rest)) ∧
      (send m = none →
        flushQueuedMessages send (fuel + 1) (m :: rest)
          = ((m :: (flushQueuedMessages send fuel rest).1),
             (flushQueuedMessages send fuel rest).2)) ∧
      ((∀ x : α, (send x).isSome) →
        (flushQueuedMessages send fuel q).1.length ≤ 1) := by
  refine ⟨rfl, rfl, ?_, ?_, ?_⟩
  · intro hs
    simp [flushQueuedMessages, hs]
  · intro hs
    simp [flushQueuedMessages, hs]
  · intro hall
    match fuel, q with
    | 0, q => simp [flushQueuedMessages]
    | fuel + 1, [] => simp [flushQueuedMessages]
    | fuel + 1, m :: rest =>
      have hm := hall m
      rcases hsm : send m with _ | e2
      · rw [hsm] at hm
        simp at hm
      · simp [flushQueuedMessages, hsm]

/-- Witness for C5: an always-failing send over a three-message queue with
fuel five attempts only the head message. -/
theorem flushQueuedMessages_stops_witness :
    flushQueuedMessages (fun _ : Nat => some SysErr.dialFail) 0 [1, 2, 3]
        = ([], [1, 2, 3]) ∧
      flushQueuedMessages (fun _ : Nat => some SysErr.dialFail) 5
          ([] : List Nat) = ([], []) ∧
      ((fun _ : Nat => some SysErr.dialFail) 1 = some SysErr.dialFail →
        flushQueuedMessages (fun _ : Nat => some SysErr.dialFail) 5 [1, 2, 3]
          = ([1], [2, 3])) ∧
      ((fun _ : Nat => some SysErr.dialFail) 1 = none →
        flushQueuedMessages (fun _ : Nat => some SysErr.dialFail) 5 [1, 2, 3]
          = ((1 :: (flushQueuedMessages (fun _ : Nat => some SysErr.dialFail)
                4 [2, 3]).1),
             (flushQueuedMessages (fun _ : Nat => some SysErr.dialFail)
                4 [2, 3]).2)) ∧
      ((∀ x : Nat,
          ((fun _ : Nat => some SysErr.dialFail) x).isSome) →
        (flushQueuedMessages (fun _ : Nat => some SysErr.dialFail)
            4 [1, 2, 3]).1.length ≤ 1) :=
  flushQueuedMessages_stops (fun _ : Nat => some SysErr.dialFail) [1, 2, 3]
    [2, 3] 1 4 SysErr.dialFail

/-! TLS configuration defaulting (src/syslog.go lines 135-143). -/

/-- Go crypto/tls protocol version constant. -/
def VersionSSL30 : Nat := 0x0300

/-- Go crypto/tls protocol version constant. -/
def VersionTLS10 : Nat := 0x0301

/-- Go crypto/tls protocol version constant. -/
def VersionTLS12 : Nat := 0x0303

/-- Go crypto/tls protocol version constant. -/
def VersionTLS13 : Nat := 0x0304

/-- The part of the Go tls.Config the adapter sets: the MinVersion field. -/
structure TlsConfigModel where
  minVersion : Nat
deriving DecidableEq, Repr

/-- Embeds the TLS branch of createSysLogAdapter (src/syslog.go lines
135-143): when UseTls is set, a supplied TlsConfig is cloned (same
MinVersion); with no supplied config, a fresh tls.Config with MinVersion set
to the integer literal 2 is installed; when UseTls is unset no TLS config is
installed. -/
def createTlsConfig (useTls : Bool) (supplied : Option TlsConfigModel) :
    Option TlsConfigModel :=
  if useTls then some (supplied.getD { minVersion := 2 }) else none

/-- C8: the claim states that with UseTls set and no TlsConfig supplied the
default MinVersion denotes a modern TLS version (TLS 1.2 or higher).  The code
installs MinVersion = 2, which is not any TLS version constant: it is below
even VersionSSL30 = 0x0300, so it is an invalid version value that imposes no
modern minimum (every real protocol version exceeds it). -/
theorem createTlsConfig_default_not_modern :
    createTlsConfig true none = some { minVersion := 2 } ∧
      (2 : Nat) < VersionSSL30 ∧
      (2 : Nat) ≠ VersionTLS12 ∧
      (2 : Nat) ≠ VersionTLS13 ∧
      (2 : Nat) < VersionTLS10 := by
  refine ⟨rfl, ?_, ?_, ?_, ?_⟩ <;> decide

/-! Shutdown and double destroy (src/syslog.go lines 181-198). -/

/-- State of a Go channel value held by an adapter field. -/
inductive ChanState
  | opened
  | closed
deriving DecidableEq, Repr

/-- Go close(ch): closing a nil channel or an already-closed channel panics;
otherwise the channel becomes closed.  The adapter fields hold
Option ChanState, with none modelling a nil channel reference. -/
def closeChan : Option ChanState → Except String ChanState
  | none => Except.error "close of nil channel"
  | some ChanState.closed => Except.error "close of closed channel"
  | some ChanState.opened => Except.ok ChanState.closed

/-- The two channel fields of syslogAdapter touched by destroy. -/
structure SyslogChannels where
  stopWorkerCh : Option ChanState
  wakeUpWorkerCh : Option ChanState
deriving DecidableEq, Repr

/-- Embeds syslogAdapter.destroy (src/syslog.go lines 181-198) at the level of
its channel operations: close(stopWorkerCh); then rundownProt.Wait,
flushQueuedMessages and disconnect, which perform no channel operation; then
close(wakeUpWorkerCh); finally both fields are assigned nil.  A panic raised
by close propagates out of destroy. -/
def destroy (st : SyslogChannels) : Except String SyslogChannels :=
  match closeChan st.stopWorkerCh with
  | Except.error e => Except.error e
  | Except.ok _ =>
    match closeChan st.wakeUpWorkerCh with
    | Except.error e => Except.error e
    | Except.ok _ => Except.ok { stopWorkerCh := none, wakeUpWorkerCh := none }

/-- The channel fields as createSysLogAdapter initializes them (src/syslog.go
lines 116-117): both channels freshly made, hence open. -/
def initialChannels : SyslogChannels :=
  { stopWorkerCh := some ChanState.opened, wakeUpWorkerCh := some ChanState.opened }

/-- C9 counterexample: the claim states that a second destroy after a first
completed destroy does not crash.  The first destroy closes both channels and
sets both fields to nil, so the second destroy immediately panics closing a
nil channel. -/
theorem destroy_twice_crashes :
    destroy initialChannels
        = Except.ok { stopWorkerCh := none, wakeUpWorkerCh := none } ∧
      destroy { stopWorkerCh := none, wakeUpWorkerCh := none }
        = Except.error "close of nil channel" :=
  ⟨rfl, rfl⟩

/-- C9 amended: after a first destroy has returned, a second destroy always
panics (close of the now-nil stopWorkerCh), so destroy follows an at-most-once
caller contract. -/
theorem destroy_second_call_faults (st2 : SyslogChannels)
    (h : destroy initialChannels = Except.ok st2) :
    destroy st2 = Except.error "close of nil channel" := by
  have hst : st2 = { stopWorkerCh := none, wakeUpWorkerCh := none } := by
    have h0 : destroy initialChannels
        = Except.ok { stopWorkerCh := none, wakeUpWorkerCh := none } := rfl
    rw [h0] at h
    cases h
    rfl
  rw [hst]
  rfl

/-- Witness for the amended C9 at the concrete post-destroy state. -/
theorem destroy_second_call_faults_witness :
    destroy { stopWorkerCh := none, wakeUpWorkerCh := none }
      = Except.error "close of nil channel" :=
  destroy_second_call_faults
    { stopWorkerCh := none, wakeUpWorkerCh := none } rfl

/-! RFC 5424 timestamp layout (src/syslog.go line 250). -/

/-- Zero-padded two-digit decimal rendering, the output of the Go layout atoms
01 (month), 02 (day of month), 15, 04 and 05. -/
def pad2 (n : Nat) : String :=
  if n < 10 then "0" ++ toString n else toString n

/-- A wall-clock instant as the Go time package decomposes it. -/
structure GoTime where
  year : Nat
  month : Nat
  day : Nat
  hour : Nat
  minute : Nat
  second : Nat
deriving DecidableEq, Repr

/-- The layout string passed to now.Format by writeString in the RFC 5424
branch (src/syslog.go line 250). -/
def rfc5424Layout : String := "2006-02-01T15:04:05Z"

/-- The layout whose date part RFC 5424 actually requires: year, month, day. -/
def rfc5424RequiredLayout : String := "2006-01-02T15:04:05Z"

/-- Embeds now.Format applied to rfc5424Layout.  Under the reference-time
convention of the Go time package, the layout atom 2006 denotes the year, 01
the zero-padded month, 02 the zero-padded day of month, 15, 04 and 05 the time
of day, and a bare Z not followed by an offset atom is a literal character.
The layout in the source therefore renders year, then day of month, then
month. -/
def rfc5424Timestamp (t : GoTime) : String :=
  toString t.year ++ "-" ++ pad2 t.day ++ "-" ++ pad2 t.month ++ "T" ++
    pad2 t.hour ++ ":" ++ pad2 t.minute ++ ":" ++ pad2 t.second ++ "Z"

/-- Decimal reading of a rendered field, used to state what a receiver parsing
the timestamp obtains from each position. -/
def readPad2 (s : String) : Nat :=
  s.data.foldl (fun n c => n * 10 + (c.toNat - 48)) 0

theorem readPad2_pad2 : ∀ n, n < 100 → readPad2 (pad2 n) = n := by
  decide

/-- C10: writeString formats the RFC 5424 timestamp with the layout
2006-02-01T15:04:05Z, which differs from the required 2006-01-02T15:04:05Z:
the date part renders year, then day of month, then month; January 15 renders
its date part as 2006-15-01; and for every day of month greater than 12 the
value sitting in the month position parses to a number greater than 12, out of
the valid month range. -/
theorem writeString_rfc5424_date_order (t : GoTime) (hday : 12 < t.day)
    (hday31 : t.day ≤ 31) :
    rfc5424Layout ≠ rfc5424RequiredLayout ∧
      rfc5424Timestamp t
        = toString t.year ++ "-" ++ pad2 t.day ++ "-" ++ pad2 t.month ++ "T" ++
            pad2 t.hour ++ ":" ++ pad2 t.minute ++ ":" ++ pad2 t.second ++ "Z" ∧
      rfc5424Timestamp ⟨2006, 1, 15, 12, 30, 45⟩ = "2006-15-01T12:30:45Z" ∧
      12 < readPad2 (pad2 t.day) := by
  refine ⟨by decide, rfl, rfl, ?_⟩
  rw [readPad2_pad2 t.day (by omega)]
  exact hday

/-- Witness for C10 at January 15, 2006, 12:30:45. -/
theorem writeString_rfc5424_date_order_witness :
    rfc5424Layout ≠ rfc5424RequiredLayout ∧
      rfc5424Timestamp ⟨2006, 1, 15, 12, 30, 45⟩
        = toString 2006 ++ "-" ++ pad2 15 ++ "-" ++ pad2 1 ++ "T" ++
            pad2 12 ++ ":" ++ pad2 30 ++ ":" ++ pad2 45 ++ "Z" ∧
      rfc5424Timestamp ⟨2006, 1, 15, 12, 30, 45⟩ = "2006-15-01T12:30:45Z" ∧
      12 < readPad2 (pad2 15) :=
  writeString_rfc5424_date_order ⟨2006, 1, 15, 12, 30, 45⟩
    (by decide) (by decide)

end GoLogger
